import Mathlib

/-!
Shallow embedding of the endless-runner simulation core in
`src/lib/gameEngine.ts`.  JS numbers are modelled as rationals; `Math.random()`
draws are threaded explicitly through an `Rng` stream of draws; `Date.now()`
and the frame timestamp (which both advance 1:1 with wall-clock milliseconds)
are modelled by an explicit `now : ℚ` parameter.  Rendering, audio and DOM
input wiring are outside the simulation core; observer callbacks
(`onPlaySound`, `onStateChange`, `onScoreChange`) are modelled as an ordered
list of emitted `GameEvent`s.
-/

/-- Source `clamp(value, min, max) = Math.max(min, Math.min(max, value))`. -/
def clamp (value lo hi : ℚ) : ℚ := max lo (min hi value)

/-- Integer form of `clamp`, used for the (integral) lane indices. -/
def clampZ (value lo hi : ℤ) : ℤ := max lo (min hi value)

/-- Source `lerp(start, end, factor) = start + (end - start) * factor`. -/
def lerp (start stop factor : ℚ) : ℚ := start + (stop - start) * factor

/-- Source `random(min, max) = Math.random() * (max - min) + min`, with the
uniform draw `u` made explicit. -/
def randomIn (u lo hi : ℚ) : ℚ := u * (hi - lo) + lo

/-- Source `Vector2D` (only the position/velocity payload; the arithmetic
helpers are inlined at their use sites). -/
structure Vec2 where
  x : ℚ
  y : ℚ
  deriving DecidableEq

/-- Hit-box record returned by the `getHitbox` methods. -/
structure Rect where
  x : ℚ
  y : ℚ
  width : ℚ
  height : ℚ
  deriving DecidableEq

/-- Source `isColliding`: strict axis-aligned rectangle overlap test. -/
def isColliding (r1 r2 : Rect) : Bool :=
  decide (r1.x < r2.x + r2.width ∧ r1.x + r1.width > r2.x ∧
    r1.y < r2.y + r2.height ∧ r1.y + r1.height > r2.y)

/-- Explicit stream of `Math.random()` results: `stream idx` is the next draw
to be consumed. -/
structure Rng where
  stream : ℕ → ℚ
  idx : ℕ

/-- Consume one uniform draw. -/
def Rng.next (r : Rng) : ℚ × Rng := (r.stream r.idx, ⟨r.stream, r.idx + 1⟩)

/-- Source `Particle` (cosmetic burst element). -/
structure Particle where
  pos : Vec2
  vel : Vec2
  color : String
  life : ℚ
  maxLife : ℚ
  deriving DecidableEq

/-- Source `new Particle(position, velocity, color)` (default life 1000 ms). -/
def Particle.new (pos vel : Vec2) (color : String) : Particle :=
  ⟨pos, vel, color, 1000, 1000⟩

/-- Source `Particle.update`: integrate position, apply friction 0.98, age by
`dt * 1000`; the caller keeps the particle while `life > 0`. -/
def Particle.update (p : Particle) (dt : ℚ) : Particle :=
  { p with
    pos := ⟨p.pos.x + p.vel.x * dt, p.pos.y + p.vel.y * dt⟩
    vel := ⟨p.vel.x * (98/100), p.vel.y * (98/100)⟩
    life := p.life - dt * 1000 }

/-- Source `createParticles`: `count` particles at `pos`, each consuming two
uniform draws for its velocity `(random(-100,100), random(-100,-200))`. -/
def createParticles (pos : Vec2) (color : String) : ℕ → Rng → List Particle × Rng
  | 0, rng => ([], rng)
  | n + 1, rng =>
    let (u1, rng1) := rng.next
    let (u2, rng2) := rng1.next
    let p := Particle.new pos ⟨randomIn u1 (-100) 100, randomIn u2 (-100) (-200)⟩ color
    let rest := createParticles pos color n rng2
    (p :: rest.1, rest.2)

/-- Source `Player` class fields. -/
structure Player where
  pos : Vec2
  vel : Vec2
  currentLane : ℤ
  targetLane : ℤ
  isJumping : Bool
  isSliding : Bool
  groundY : ℚ
  jumpHeight : ℚ
  slideTime : ℚ
  width : ℚ
  height : ℚ
  animationFrame : ℚ
  invulnerable : Bool
  invulnerableTime : ℚ
  deriving DecidableEq

/-- Source `new Player(x, y, groundY)`. -/
def Player.init (x y groundY : ℚ) : Player :=
  { pos := ⟨x, y⟩, vel := ⟨0, 0⟩, currentLane := 1, targetLane := 1,
    isJumping := false, isSliding := false, groundY := groundY,
    jumpHeight := 150, slideTime := 0, width := 40, height := 60,
    animationFrame := 0, invulnerable := false, invulnerableTime := 0 }

/-- Lane position lookup `lanePositions[i]` (a fixed 3-element array in the
source; a JS out-of-range access yields `undefined` and is unreachable in the
paths the claims exercise, mapped here to 0). -/
def laneGet (lanes : ℚ × ℚ × ℚ) (i : ℤ) : ℚ :=
  if i = 0 then lanes.1 else if i = 1 then lanes.2.1 else if i = 2 then lanes.2.2 else 0

/-- Source `Player.update(deltaTime, lanePositions)`: clamp and steer toward
the target lane, jumping physics, slide countdown, invulnerability countdown,
animation frame. -/
def Player.update (p : Player) (dt : ℚ) (lanes : ℚ × ℚ × ℚ) : Player :=
  let targetLane := clampZ p.targetLane 0 2
  let targetX := laneGet lanes targetLane
  let posX := lerp p.pos.x targetX (dt * 8)
  let currentLane := if |posX - targetX| < 5 then targetLane else p.currentLane
  let jmp : ℚ × ℚ × Bool :=
    if p.isJumping then
      let vy := p.vel.y + 800 * dt
      let py := p.pos.y + vy * dt
      if py ≥ p.groundY then (0, p.groundY, false) else (vy, py, true)
    else (p.vel.y, p.pos.y, p.isJumping)
  let sld : ℚ × Bool :=
    if p.isSliding then
      let st := p.slideTime - dt * 1000
      if st ≤ 0 then (st, false) else (st, true)
    else (p.slideTime, p.isSliding)
  let inv : ℚ × Bool :=
    if p.invulnerable then
      let it := p.invulnerableTime - dt * 1000
      if it ≤ 0 then (it, false) else (it, true)
    else (p.invulnerableTime, p.invulnerable)
  { p with
    pos := ⟨posX, jmp.2.1⟩
    vel := ⟨p.vel.x, jmp.1⟩
    currentLane := currentLane
    targetLane := targetLane
    isJumping := jmp.2.2
    slideTime := sld.1
    isSliding := sld.2
    invulnerableTime := inv.1
    invulnerable := inv.2
    animationFrame := p.animationFrame + dt * 10 }

/-- Source `Player.jump()`: no-op unless neither flag is set. -/
def Player.jump (p : Player) : Player :=
  if !p.isJumping && !p.isSliding then
    { p with isJumping := true, vel := ⟨p.vel.x, -600⟩ }
  else p

/-- Source `Player.slide()`: no-op unless neither flag is set. -/
def Player.slide (p : Player) : Player :=
  if !p.isJumping && !p.isSliding then
    { p with isSliding := true, slideTime := 800 }
  else p

/-- Source `Player.moveLane(direction)`. -/
def Player.moveLane (p : Player) (direction : ℤ) : Player :=
  { p with targetLane := clampZ (p.targetLane + direction) 0 2 }

/-- Source `Player.getHitbox()`: height shrinks to 60% while sliding and the
box is shifted down by 40% of the standing height. -/
def Player.getHitbox (p : Player) : Rect :=
  let h := if p.isSliding then p.height * (6/10) else p.height
  let y := if p.isSliding then p.pos.y + p.height * (4/10) else p.pos.y
  ⟨p.pos.x - p.width / 2, y - h, p.width, h⟩

/-- Source obstacle type tags. -/
inductive ObstacleType
  | barrier
  | train
  | low
  deriving DecidableEq

/-- Obstacle widths fixed by type in the source constructor. -/
def ObstacleType.width : ObstacleType → ℚ
  | .barrier => 40
  | .train => 60
  | .low => 50

/-- Obstacle heights fixed by type in the source constructor. -/
def ObstacleType.height : ObstacleType → ℚ
  | .barrier => 80
  | .train => 100
  | .low => 40

/-- Source `Obstacle`. -/
structure Obstacle where
  pos : Vec2
  lane : ℤ
  type : ObstacleType
  deriving DecidableEq

/-- Source `Obstacle.update`: scroll downward by `gameSpeed * dt`. -/
def Obstacle.update (o : Obstacle) (dt gameSpeed : ℚ) : Obstacle :=
  { o with pos := ⟨o.pos.x, o.pos.y + gameSpeed * dt⟩ }

/-- Source `Obstacle.getHitbox()`. -/
def Obstacle.getHitbox (o : Obstacle) : Rect :=
  ⟨o.pos.x - o.type.width / 2, o.pos.y - o.type.height, o.type.width, o.type.height⟩

/-- Source `Coin` (`width = height = 20` are fixed constants; `magnetTarget`
is declared but never assigned in the source, so it stays `none`). -/
structure Coin where
  pos : Vec2
  lane : ℤ
  collected : Bool
  animationFrame : ℚ
  magnetTarget : Option Vec2
  deriving DecidableEq

/-- Source `new Coin(position, lane)`. -/
def Coin.new (pos : Vec2) (lane : ℤ) : Coin :=
  ⟨pos, lane, false, 0, none⟩

/-- Source `Coin.update`.  `Math.sqrt` (inside `Vector2D.distance`) has no
rational counterpart, so the square-root function is an explicit parameter
`sqrtQ` applied to the squared distance; every theorem below either
quantifies over `sqrtQ` or avoids the magnet branch. -/
def Coin.update (sqrtQ : ℚ → ℚ) (c : Coin) (dt gameSpeed : ℚ) (playerPos : Vec2)
    (magnetActive : Bool) : Coin :=
  let c1 := { c with animationFrame := c.animationFrame + dt * 15 }
  let c2 :=
    if magnetActive && !c1.collected then
      let distance := sqrtQ ((c1.pos.x - playerPos.x) ^ 2 + (c1.pos.y - playerPos.y) ^ 2)
      if distance < 150 then
        let force := min 1 (300 / distance)
        { c1 with pos := ⟨lerp c1.pos.x playerPos.x (dt * force * 5),
                          lerp c1.pos.y playerPos.y (dt * force * 5)⟩ }
      else c1
    else c1
  if c2.magnetTarget.isNone then
    { c2 with pos := ⟨c2.pos.x, c2.pos.y + gameSpeed * dt⟩ }
  else c2

/-- Source `Coin.getHitbox()` (`width = height = 20`). -/
def Coin.getHitbox (c : Coin) : Rect :=
  ⟨c.pos.x - 20 / 2, c.pos.y - 20 / 2, 20, 20⟩

/-- Source power-up kinds. -/
inductive PowerUpType
  | magnet
  | speed
  | shield
  deriving DecidableEq

/-- Source `PowerUp` (`width = height = 30` are fixed constants). -/
structure PowerUp where
  pos : Vec2
  lane : ℤ
  type : PowerUpType
  collected : Bool
  animationFrame : ℚ
  deriving DecidableEq

/-- Source `PowerUp.update`. -/
def PowerUp.update (p : PowerUp) (dt gameSpeed : ℚ) : PowerUp :=
  { p with pos := ⟨p.pos.x, p.pos.y + gameSpeed * dt⟩,
           animationFrame := p.animationFrame + dt * 8 }

/-- Source `PowerUp.getHitbox()` (`width = height = 30`). -/
def PowerUp.getHitbox (p : PowerUp) : Rect :=
  ⟨p.pos.x - 30 / 2, p.pos.y - 30 / 2, 30, 30⟩

/-- The source's `Map<PowerUpType, number>` of effect-expiry timestamps: one
optional entry per kind (a `Map` keyed by the three-valued kind holds at most
one entry per kind by construction). -/
structure EffectRegistry where
  magnet : Option ℚ
  speed : Option ℚ
  shield : Option ℚ
  deriving DecidableEq

/-- The empty registry (`new Map()` / `clear()`). -/
def EffectRegistry.empty : EffectRegistry := ⟨none, none, none⟩

/-- Entry lookup (`Map.get`). -/
def EffectRegistry.get (r : EffectRegistry) : PowerUpType → Option ℚ
  | .magnet => r.magnet
  | .speed => r.speed
  | .shield => r.shield

/-- Entry insertion/replacement (`Map.set`). -/
def EffectRegistry.set (r : EffectRegistry) (k : PowerUpType) (v : ℚ) : EffectRegistry :=
  match k with
  | .magnet => { r with magnet := some v }
  | .speed => { r with speed := some v }
  | .shield => { r with shield := some v }

/-- Source `this.activePowerUps.has(kind)` (entry present, expired or not). -/
def EffectRegistry.has (r : EffectRegistry) (k : PowerUpType) : Bool :=
  (r.get k).isSome

/-- One entry of the source expiry purge: delete when `currentTime > endTime`. -/
def purgeEntry (now : ℚ) : Option ℚ → Option ℚ
  | some t => if now > t then none else some t
  | none => none

/-- The source purge loop over `activePowerUps.entries()`. -/
def EffectRegistry.purge (r : EffectRegistry) (now : ℚ) : EffectRegistry :=
  ⟨purgeEntry now r.magnet, purgeEntry now r.speed, purgeEntry now r.shield⟩

/-- Source `spawnObstacle`: one uniform draw for the lane, one for the type. -/
def spawnObstacle (lanes : ℚ × ℚ × ℚ) (rng : Rng) : Obstacle × Rng :=
  let (u1, rng1) := rng.next
  let lane := Rat.floor (u1 * 3)
  let (u2, rng2) := rng1.next
  let type := [ObstacleType.barrier, ObstacleType.train, ObstacleType.low].getD
    (Rat.floor (u2 * 3)).toNat ObstacleType.barrier
  (⟨⟨laneGet lanes lane, -100⟩, lane, type⟩, rng2)

/-- Source `spawnCoin`:
`numCoins = Math.random() < 0.3 ? 3 : Math.random() < 0.6 ? 2 : 1`
(the second draw is only consumed when the first is ≥ 0.3), then a base-lane
draw; coin `i` goes on lane `min(2, baseLane + i)` at `y = -100 - 30 i`. -/
def spawnCoin (lanes : ℚ × ℚ × ℚ) (rng : Rng) : List Coin × Rng :=
  let (u1, rngA) := rng.next
  let nr : ℕ × Rng :=
    if u1 < 3/10 then (3, rngA)
    else
      let (u2, rngB) := rngA.next
      (if u2 < 6/10 then 2 else 1, rngB)
  let (u3, rng2) := nr.2.next
  let baseLane := Rat.floor (u3 * 3)
  ((List.range nr.1).map fun (i : ℕ) =>
    Coin.new ⟨laneGet lanes (min 2 (baseLane + (i : ℤ))), -100 - (i : ℚ) * 30⟩
      (min 2 (baseLane + (i : ℤ))), rng2)

/-- Source `spawnPowerUp`: one uniform draw for the lane, one for the kind. -/
def spawnPowerUp (lanes : ℚ × ℚ × ℚ) (rng : Rng) : PowerUp × Rng :=
  let (u1, rng1) := rng.next
  let lane := Rat.floor (u1 * 3)
  let (u2, rng2) := rng1.next
  let type := [PowerUpType.magnet, PowerUpType.speed, PowerUpType.shield].getD
    (Rat.floor (u2 * 3)).toNat PowerUpType.magnet
  (⟨⟨laneGet lanes lane, -100⟩, lane, type, false, 0⟩, rng2)

/-- The cluster-size decision of `spawnCoin` as a function of the first two
uniform draws (when the first draw is below 0.3 the second is not consumed,
and the value is then independent of it). -/
def numCoinsOfDraws (u1 u2 : ℚ) : ℕ :=
  if u1 < 3/10 then 3 else if u2 < 6/10 then 2 else 1

/-- Number of pairs in the uniform 10×10 grid of draws (resolution 1/10 is
exact for the thresholds 3/10 and 6/10) on which the cluster size is `k`;
dividing by 100 gives the probability of a cluster of `k` coins. -/
def coinCountGrid (k : ℕ) : ℕ :=
  ((Finset.range 10 ×ˢ Finset.range 10).filter
    (fun p => numCoinsOfDraws ((p.1 : ℚ) / 10) ((p.2 : ℚ) / 10) = k)).card

/-- Source `GameState`. -/
inductive GameState
  | menu
  | playing
  | paused
  | gameOver
  deriving DecidableEq

/-- Observer notifications emitted during a tick, in order:
`onPlaySound(name)`, `onStateChange(state)`, `onScoreChange(score)`. -/
inductive GameEvent
  | sound (name : String)
  | stateChange (s : GameState)
  | scoreChange (q : ℚ)
  deriving DecidableEq

/-- Source: `gameSpeed = baseSpeed + Math.floor(score / 500) * 50`. -/
def scrollSpeedFor (baseSpeed score : ℚ) : ℚ :=
  baseSpeed + (Rat.floor (score / 500) : ℚ) * 50

/-- Source: `obstacleSpawnInterval = Math.max(800, 2000 - Math.floor(score / 200) * 100)`. -/
def spawnIntervalFor (score : ℚ) : ℚ :=
  max 800 (2000 - (Rat.floor (score / 200) : ℚ) * 100)

/-- The mutable fields of the source `GameEngine` class that belong to the
simulation core (canvas, FPS bookkeeping and input wiring are rendering-side). -/
structure EngineState where
  state : GameState
  player : Player
  obstacles : List Obstacle
  coins : List Coin
  powerUps : List PowerUp
  particles : List Particle
  lanePositions : ℚ × ℚ × ℚ
  gameSpeed : ℚ
  baseSpeed : ℚ
  score : ℚ
  highScore : ℚ
  lives : ℤ
  groundY : ℚ
  canvasHeight : ℚ
  lastObstacleSpawn : ℚ
  lastCoinSpawn : ℚ
  lastPowerUpSpawn : ℚ
  obstacleSpawnInterval : ℚ
  activePowerUps : EffectRegistry
  rng : Rng
  lastTime : ℚ

namespace GameEngine

/-- Source `GameEngine` constructor: lane positions at 25%/50%/75% of the
width, ground at 80% of the height, player in the centre lane.  It performs
no validation of its inputs and has no failure path. -/
def construct (width height : ℚ) (rng : Rng) : EngineState :=
  { state := .menu
    player := Player.init (width * (50/100)) (height * (8/10)) (height * (8/10))
    obstacles := []
    coins := []
    powerUps := []
    particles := []
    lanePositions := (width * (25/100), width * (50/100), width * (75/100))
    gameSpeed := 300
    baseSpeed := 300
    score := 0
    highScore := 0
    lives := 3
    groundY := height * (8/10)
    canvasHeight := height
    lastObstacleSpawn := 0
    lastCoinSpawn := 0
    lastPowerUpSpawn := 0
    obstacleSpawnInterval := 2000
    activePowerUps := EffectRegistry.empty
    rng := rng
    lastTime := 0 }

/-- Source `setState`: set the state and notify observers. -/
def setState (s : EngineState) (st : GameState) : EngineState × List GameEvent :=
  ({ s with state := st }, [GameEvent.stateChange st])

/-- Source `resetGame` (note: it does not reset `obstacleSpawnInterval`,
`highScore` or `lastTime`; it notifies `onScoreChange(0)`). -/
def resetGame (s : EngineState) : EngineState × List GameEvent :=
  ({ s with
      score := 0
      lives := 3
      gameSpeed := s.baseSpeed
      obstacles := []
      coins := []
      powerUps := []
      particles := []
      activePowerUps := EffectRegistry.empty
      lastObstacleSpawn := 0
      lastCoinSpawn := 0
      lastPowerUpSpawn := 0
      player := Player.init s.lanePositions.2.1 s.groundY s.groundY },
   [GameEvent.scoreChange 0])

/-- Source `startGame` = `resetGame` then transition to `playing`. -/
def startGame (s : EngineState) : EngineState × List GameEvent :=
  let r := resetGame s
  let t := setState r.1 .playing
  (t.1, r.2 ++ t.2)

/-- Source `pauseGame`. -/
def pauseGame (s : EngineState) : EngineState × List GameEvent :=
  if s.state = .playing then setState s .paused else (s, [])

/-- Source `resumeGame`. -/
def resumeGame (s : EngineState) : EngineState × List GameEvent :=
  if s.state = .paused then setState s .playing else (s, [])

/-- Source effect durations: magnet 8000 ms, speed 6000 ms, shield 10000 ms. -/
def durationOf (t : PowerUpType) : ℚ :=
  if t = .magnet then 8000 else if t = .speed then 6000 else 10000

/-- Source `activatePowerUp(type)` (`Date.now()` passed as `now`): replace the
kind's expiry with `now + duration`; shield additionally arms the player's
invulnerability timer with the shield duration. -/
def activatePowerUp (s : EngineState) (t : PowerUpType) (now : ℚ) : EngineState :=
  let duration := durationOf t
  let s1 := { s with activePowerUps := s.activePowerUps.set t (now + duration) }
  if t = .shield then
    { s1 with player := { s1.player with invulnerable := true, invulnerableTime := duration } }
  else s1

/-- Source `handlePlayerHit`: absorbed outright while a Shield entry exists;
otherwise lose a life, emit `hit`, burst 10 red particles, arm a 2000 ms
invulnerability window, and on `lives ≤ 0` transition to game over emitting
`gameover`. -/
def handlePlayerHit (s : EngineState) : EngineState × List GameEvent :=
  if s.activePowerUps.has .shield then (s, [])
  else
    let lives := s.lives - 1
    let pr := createParticles s.player.pos "#FF4444" 10 s.rng
    let s1 := { s with
      lives := lives
      particles := s.particles ++ pr.1
      player := { s.player with invulnerable := true, invulnerableTime := 2000 }
      rng := pr.2 }
    if lives ≤ 0 then
      let t := setState s1 .gameOver
      (t.1, [GameEvent.sound "hit"] ++ t.2 ++ [GameEvent.sound "gameover"])
    else
      (s1, [GameEvent.sound "hit"])

/-- The obstacle stage of `checkCollisions`: skipped entirely while the player
is invulnerable; otherwise the first overlapping obstacle triggers a hit and
the loop breaks (at most one hit per tick). -/
def resolveObstacles (pHB : Rect) (s : EngineState) : EngineState × List GameEvent :=
  if s.player.invulnerable then (s, [])
  else
    match s.obstacles.find? (fun o => isColliding pHB o.getHitbox) with
    | some _ => handlePlayerHit s
    | none => (s, [])

/-- One step of the source coin-collection loop: mark, `+10` score, `coin`
sound, 5 gold particles. -/
def collectCoinStep (pHB : Rect) :
    List Coin × EngineState × List GameEvent → Coin →
    List Coin × EngineState × List GameEvent
  | (acc, s, evs), coin =>
    if !coin.collected && isColliding pHB coin.getHitbox then
      let pr := createParticles coin.pos "#FFD700" 5 s.rng
      (acc ++ [{ coin with collected := true }],
       { s with score := s.score + 10, particles := s.particles ++ pr.1, rng := pr.2 },
       evs ++ [GameEvent.sound "coin"])
    else (acc ++ [coin], s, evs)

/-- One step of the source power-up-collection loop: mark, activate the kind,
`powerup` sound, 8 particles coloured by kind. -/
def collectPowerUpStep (pHB : Rect) (now : ℚ) :
    List PowerUp × EngineState × List GameEvent → PowerUp →
    List PowerUp × EngineState × List GameEvent
  | (acc, s, evs), pu =>
    if !pu.collected && isColliding pHB pu.getHitbox then
      let s1 := activatePowerUp s pu.type now
      let color := if pu.type = .magnet then "#9B59B6"
        else if pu.type = .speed then "#E74C3C" else "#3498DB"
      let pr := createParticles pu.pos color 8 s1.rng
      (acc ++ [{ pu with collected := true }],
       { s1 with particles := s1.particles ++ pr.1, rng := pr.2 },
       evs ++ [GameEvent.sound "powerup"])
    else (acc ++ [pu], s, evs)

/-- Source `checkCollisions`: hit-box computed once, then coins, power-ups and
obstacles resolved in that order (`Date.now()` inside `activatePowerUp` passed
as `now`). -/
def checkCollisions (s : EngineState) (now : ℚ) : EngineState × List GameEvent :=
  let pHB := s.player.getHitbox
  let c := s.coins.foldl (collectCoinStep pHB) ([], s, [])
  let s1 := { c.2.1 with coins := c.1 }
  let p := s1.powerUps.foldl (collectPowerUpStep pHB now) ([], s1, [])
  let s2 := { p.2.1 with powerUps := p.1 }
  let r := resolveObstacles pHB s2
  (r.1, c.2.2 ++ p.2.2 ++ r.2)

/-- The stages of source `update(deltaTime)` before collision resolution:
player update, the three elapsed-time spawn gates, entity advance and culling,
particle decay, and the effect-expiry purge (`Date.now()` passed as `now`). -/
def advanceStage (sqrtQ : ℚ → ℚ) (s : EngineState) (now dt : ℚ) : EngineState :=
  let s1 := { s with player := s.player.update dt s.lanePositions }
  let s2 :=
    if now - s1.lastObstacleSpawn > s1.obstacleSpawnInterval then
      let so := spawnObstacle s1.lanePositions s1.rng
      { s1 with obstacles := s1.obstacles ++ [so.1], lastObstacleSpawn := now, rng := so.2 }
    else s1
  let s3 :=
    if now - s2.lastCoinSpawn > 1500 then
      let sc := spawnCoin s2.lanePositions s2.rng
      { s2 with coins := s2.coins ++ sc.1, lastCoinSpawn := now, rng := sc.2 }
    else s2
  let s4 :=
    if now - s3.lastPowerUpSpawn > 15000 then
      let sp := spawnPowerUp s3.lanePositions s3.rng
      { s3 with powerUps := s3.powerUps ++ [sp.1], lastPowerUpSpawn := now, rng := sp.2 }
    else s3
  let movedObstacles :=
    (s4.obstacles.map (fun o => o.update dt s4.gameSpeed)).filter
      (fun o => decide (o.pos.y < s4.canvasHeight + 100))
  let s5 := { s4 with obstacles := movedObstacles }
  let magnetActive := s5.activePowerUps.has .magnet
  let movedCoins :=
    (s5.coins.map (fun c => c.update sqrtQ dt s5.gameSpeed s5.player.pos magnetActive)).filter
      (fun c => decide (c.pos.y < s5.canvasHeight + 50) && !c.collected)
  let s6 := { s5 with coins := movedCoins }
  let movedPowerUps :=
    (s6.powerUps.map (fun p => p.update dt s6.gameSpeed)).filter
      (fun p => decide (p.pos.y < s6.canvasHeight + 50) && !p.collected)
  let s7 := { s6 with powerUps := movedPowerUps }
  let agedParticles :=
    (s7.particles.map (fun p => p.update dt)).filter (fun p => decide (0 < p.life))
  let s8 := { s7 with particles := agedParticles }
  { s8 with activePowerUps := s8.activePowerUps.purge now }

/-- Source `update(deltaTime)` up to and including collision resolution. -/
def updateCore (sqrtQ : ℚ → ℚ) (s : EngineState) (now dt : ℚ) : EngineState × List GameEvent :=
  checkCollisions (advanceStage sqrtQ s now dt) now

/-- Source `update(deltaTime)`: the core pipeline, then the difficulty update
(`scrollSpeedFor`, `spawnIntervalFor` from the post-collision score), the
survival score accrual `score += dt * 10`, and the floored score
notification. -/
def update (sqrtQ : ℚ → ℚ) (s : EngineState) (now dt : ℚ) : EngineState × List GameEvent :=
  let c := updateCore sqrtQ s now dt
  let s1 := { c.1 with
    gameSpeed := scrollSpeedFor c.1.baseSpeed c.1.score
    obstacleSpawnInterval := spawnIntervalFor c.1.score }
  let s2 := { s1 with score := s1.score + dt * 10 }
  (s2, c.2 ++ [GameEvent.scoreChange ((Rat.floor s2.score : ℤ) : ℚ)])

/-- Source `gameLoop` without rendering and FPS bookkeeping: compute the
capped delta-time (`min(…, 0.016)`), remember `lastTime`, and run `update`
only while `playing`.  The frame timestamp and `Date.now()` both advance 1:1
with wall-clock time and are modelled by the single `currentTime` parameter
(milliseconds). -/
def frame (sqrtQ : ℚ → ℚ) (s : EngineState) (currentTime : ℚ) : EngineState × List GameEvent :=
  let dt := min ((currentTime - s.lastTime) / 1000) (16/1000)
  let s1 := { s with lastTime := currentTime }
  if s1.state = .playing then update sqrtQ s1 currentTime dt else (s1, [])

end GameEngine

/-- Player-facing intents and ticks, used to state invariants over all
reachable player states. -/
inductive PlayerOp
  | move (d : ℤ)
  | jumpIntent
  | slideIntent
  | tick (dt : ℚ) (lanes : ℚ × ℚ × ℚ)

/-- Apply one intent or tick to the player. -/
def applyOp (p : Player) : PlayerOp → Player
  | .move d => p.moveLane d
  | .jumpIntent => p.jump
  | .slideIntent => p.slide
  | .tick dt lanes => p.update dt lanes

/-- Run a sequence of intents/ticks. -/
def runOps (p : Player) (ops : List PlayerOp) : Player :=
  ops.foldl applyOp p

/-- Trivial stand-in for the square-root parameter, used where the magnet
branch is not exercised. -/
def sqrt0 : ℚ → ℚ := fun _ => 0

/-! ### Invariants of the player controller -/

/-- Both lane indices of the player are in the range [0, 2]. -/
def laneOK (p : Player) : Prop :=
  (0 ≤ p.targetLane ∧ p.targetLane ≤ 2) ∧ (0 ≤ p.currentLane ∧ p.currentLane ≤ 2)

lemma clampZ_mem (v : ℤ) : 0 ≤ clampZ v 0 2 ∧ clampZ v 0 2 ≤ 2 := by
  unfold clampZ
  omega

lemma laneOK_applyOp (p : Player) (op : PlayerOp) (h : laneOK p) : laneOK (applyOp p op) := by
  obtain ⟨hT, hC⟩ := h
  cases op with
  | move d =>
    simp only [applyOp, Player.moveLane, laneOK]
    exact ⟨clampZ_mem _, hC⟩
  | jumpIntent =>
    simp only [applyOp, Player.jump, laneOK]
    split <;> exact ⟨hT, hC⟩
  | slideIntent =>
    simp only [applyOp, Player.slide, laneOK]
    split <;> exact ⟨hT, hC⟩
  | tick dt lanes =>
    simp only [applyOp, Player.update, laneOK]
    refine ⟨clampZ_mem _, ?_⟩
    split
    · exact clampZ_mem _
    · exact hC

lemma laneOK_runOps (p : Player) (ops : List PlayerOp) (h : laneOK p) :
    laneOK (runOps p ops) := by
  induction ops generalizing p with
  | nil => exact h
  | cons op rest ih => exact ih _ (laneOK_applyOp p op h)

/-- C2: from any player state whose lane indices are in range (all reachable
states, since the initial player has both lanes at 1), any finite sequence of
intents and ticks — in particular any run of `moveLane(±1)` calls — keeps the
target lane and current lane in {0,1,2}; `moveLane` clamps
`targetLane + direction` into [0,2], so starting at lane 1 two consecutive
`moveLane(-1)` calls yield target lane 0, not -1. -/
theorem laneIndexAlwaysInRange :
    (∀ (p : Player) (ops : List PlayerOp),
      0 ≤ p.targetLane → p.targetLane ≤ 2 → 0 ≤ p.currentLane → p.currentLane ≤ 2 →
        (0 ≤ (runOps p ops).targetLane ∧ (runOps p ops).targetLane ≤ 2) ∧
        (0 ≤ (runOps p ops).currentLane ∧ (runOps p ops).currentLane ≤ 2))
  ∧ (∀ (p : Player) (d : ℤ), (p.moveLane d).targetLane = clampZ (p.targetLane + d) 0 2)
  ∧ (∀ x y g : ℚ, (((Player.init x y g).moveLane (-1)).moveLane (-1)).targetLane = 0) := by
  refine ⟨?_, ?_, ?_⟩
  · intro p ops h1 h2 h3 h4
    exact laneOK_runOps p ops ⟨⟨h1, h2⟩, ⟨h3, h4⟩⟩
  · intro p d
    rfl
  · intro x y g
    simp [Player.init, Player.moveLane, clampZ]

/-- Witness for `laneIndexAlwaysInRange` at a concrete player and a concrete
run of two left moves. -/
theorem laneIndexAlwaysInRange_witness :
    ((0 ≤ (runOps (Player.init 0 0 0) [.move (-1), .move (-1)]).targetLane ∧
      (runOps (Player.init 0 0 0) [.move (-1), .move (-1)]).targetLane ≤ 2) ∧
     (0 ≤ (runOps (Player.init 0 0 0) [.move (-1), .move (-1)]).currentLane ∧
      (runOps (Player.init 0 0 0) [.move (-1), .move (-1)]).currentLane ≤ 2)) ∧
    (((Player.init 0 0 0).moveLane (-1)).moveLane (-1)).targetLane = 0 :=
  ⟨laneIndexAlwaysInRange.1 (Player.init 0 0 0) [.move (-1), .move (-1)]
      (by decide) (by decide) (by decide) (by decide),
   laneIndexAlwaysInRange.2.2 0 0 0⟩

/-! ### Mutual exclusion of jumping and sliding -/

/-- The jumping and sliding flags are never simultaneously set. -/
def flagsOK (p : Player) : Prop := ¬(p.isJumping = true ∧ p.isSliding = true)

lemma flagsOK_applyOp (p : Player) (op : PlayerOp) (h : flagsOK p) : flagsOK (applyOp p op) := by
  cases op with
  | move d =>
    simpa [applyOp, Player.moveLane, flagsOK] using h
  | jumpIntent =>
    simp only [applyOp, Player.jump, flagsOK]
    split
    · rename_i hc
      simp only [Bool.and_eq_true, Bool.not_eq_true'] at hc
      simp [hc.2]
    · exact h
  | slideIntent =>
    simp only [applyOp, Player.slide, flagsOK]
    split
    · rename_i hc
      simp only [Bool.and_eq_true, Bool.not_eq_true'] at hc
      simp [hc.1]
    · exact h
  | tick dt lanes =>
    simp only [applyOp, Player.update, flagsOK]
    rcases hj : p.isJumping with _ | _ <;> rcases hs : p.isSliding with _ | _
    · simp [hj, hs]
    · simp [hj, hs]
    · simp [hj, hs]
    · exact absurd ⟨hj, hs⟩ h

lemma flagsOK_runOps (p : Player) (ops : List PlayerOp) (h : flagsOK p) :
    flagsOK (runOps p ops) := by
  induction ops generalizing p with
  | nil => exact h
  | cons op rest ih => exact ih _ (flagsOK_applyOp p op h)

/-- C8: `jump()` and `slide()` are no-ops whenever either flag is already set;
when enabled, each sets only its own flag (`jump()` additionally sets the
vertical velocity to -600, `slide()` arms the 800 ms countdown); hence along
every sequence of intents and ticks from the initial player at most one of
{isJumping, isSliding} is true at every tick boundary. -/
theorem jumpSlideMutualExclusion :
    (∀ p : Player, (p.isJumping = true ∨ p.isSliding = true) → p.jump = p ∧ p.slide = p)
  ∧ (∀ p : Player, p.isJumping = false → p.isSliding = false →
      (p.jump).isJumping = true ∧ (p.jump).isSliding = p.isSliding ∧ (p.jump).vel.y = -600
      ∧ (p.slide).isSliding = true ∧ (p.slide).isJumping = p.isJumping ∧ (p.slide).slideTime = 800)
  ∧ (∀ (x y g : ℚ) (ops : List PlayerOp),
      ¬((runOps (Player.init x y g) ops).isJumping = true ∧
        (runOps (Player.init x y g) ops).isSliding = true)) := by
  refine ⟨?_, ?_, ?_⟩
  · intro p h
    have : (!p.isJumping && !p.isSliding) = false := by
      rcases h with h | h <;> simp [h]
    constructor <;> · simp [Player.jump, Player.slide, this]
  · intro p hj hs
    simp [Player.jump, Player.slide, hj, hs]
  · intro x y g ops
    exact flagsOK_runOps _ ops (by simp [Player.init, flagsOK])

/-- Witness for `jumpSlideMutualExclusion` at concrete players and a concrete
op sequence. -/
theorem jumpSlideMutualExclusion_witness :
    ((Player.init 0 0 0).slide.jump = (Player.init 0 0 0).slide ∧
     (Player.init 0 0 0).slide.slide = (Player.init 0 0 0).slide) ∧
    ((Player.init 0 0 0).jump.isJumping = true ∧
     (Player.init 0 0 0).jump.vel.y = -600) ∧
    ¬((runOps (Player.init 0 0 0) [.jumpIntent, .slideIntent]).isJumping = true ∧
      (runOps (Player.init 0 0 0) [.jumpIntent, .slideIntent]).isSliding = true) :=
  ⟨jumpSlideMutualExclusion.1 (Player.init 0 0 0).slide (Or.inr (by decide)),
   ⟨(jumpSlideMutualExclusion.2.1 (Player.init 0 0 0) (by decide) (by decide)).1,
    (jumpSlideMutualExclusion.2.1 (Player.init 0 0 0) (by decide) (by decide)).2.2.1⟩,
   jumpSlideMutualExclusion.2.2 0 0 0 [.jumpIntent, .slideIntent]⟩

/-! ### Effect registry -/

/-- A concrete engine state used to instantiate witnesses. -/
def sDemo : EngineState := GameEngine.construct 400 800 ⟨fun _ => 1/2, 0⟩

/-- C3: `activatePowerUp(kind)` always sets that kind's expiry to
`now + duration(kind)` with duration 8000/6000/10000 ms for
Magnet/Speed/Shield, leaves the (at most one) entry of every other kind
untouched, and a second activation before (or after) the first expiry
replaces the entry with `now2 + duration`, independent of the previous
expiry — so for `now1 ≤ now2` the effective expiry never shrinks. -/
theorem activateRefreshesExpiry :
    (∀ (s : EngineState) (t : PowerUpType) (now : ℚ),
        (GameEngine.activatePowerUp s t now).activePowerUps.get t
          = some (now + GameEngine.durationOf t)
      ∧ ∀ t2, t2 ≠ t →
          (GameEngine.activatePowerUp s t now).activePowerUps.get t2 = s.activePowerUps.get t2)
  ∧ GameEngine.durationOf .magnet = 8000
  ∧ GameEngine.durationOf .speed = 6000
  ∧ GameEngine.durationOf .shield = 10000
  ∧ (∀ (s : EngineState) (t : PowerUpType) (now1 now2 : ℚ), now1 ≤ now2 →
        (GameEngine.activatePowerUp (GameEngine.activatePowerUp s t now1) t now2).activePowerUps.get t
          = some (now2 + GameEngine.durationOf t)
      ∧ now1 + GameEngine.durationOf t ≤ now2 + GameEngine.durationOf t) := by
  have hset : ∀ (s : EngineState) (t : PowerUpType) (now : ℚ),
      (GameEngine.activatePowerUp s t now).activePowerUps.get t
        = some (now + GameEngine.durationOf t)
    ∧ ∀ t2, t2 ≠ t →
        (GameEngine.activatePowerUp s t now).activePowerUps.get t2 = s.activePowerUps.get t2 := by
    intro s t now
    constructor
    · cases t <;>
        simp [GameEngine.activatePowerUp, GameEngine.durationOf,
          EffectRegistry.set, EffectRegistry.get]
    · intro t2 hne
      cases t <;> cases t2 <;>
        simp_all [GameEngine.activatePowerUp, GameEngine.durationOf,
          EffectRegistry.set, EffectRegistry.get]
  refine ⟨hset, rfl, rfl, rfl, ?_⟩
  intro s t now1 now2 hle
  exact ⟨(hset _ t now2).1, by linarith⟩

/-- Witness for `activateRefreshesExpiry`: double activation of Magnet at
times 100 then 200 on a concrete state. -/
theorem activateRefreshesExpiry_witness :
    (GameEngine.activatePowerUp (GameEngine.activatePowerUp sDemo .magnet 100) .magnet 200).activePowerUps.get .magnet
      = some (200 + GameEngine.durationOf .magnet)
  ∧ 100 + GameEngine.durationOf .magnet ≤ 200 + GameEngine.durationOf .magnet
  ∧ (GameEngine.activatePowerUp sDemo .magnet 100).activePowerUps.get .speed
      = sDemo.activePowerUps.get .speed :=
  ⟨(activateRefreshesExpiry.2.2.2.2 sDemo .magnet 100 200 (by norm_num)).1,
   (activateRefreshesExpiry.2.2.2.2 sDemo .magnet 100 200 (by norm_num)).2,
   (activateRefreshesExpiry.1 sDemo .magnet 100).2 .speed (by decide)⟩

/-! ### Difficulty and spawn-cadence formulas -/

/-- C7: every tick recomputes `gameSpeed = baseSpeed + floor(score/500)*50`
and `obstacleSpawnInterval = max(800, 2000 - floor(score/200)*100)` from the
post-collision score; the interval is 2000 ms at score 0, 1800 ms at score
400, never below 800 ms for any score, and with `baseSpeed = 300` the scroll
speed at score exactly 500 is 350. -/
theorem difficultyFormulaPerTick :
    (∀ (sq : ℚ → ℚ) (s : EngineState) (now dt : ℚ),
        (GameEngine.update sq s now dt).1.gameSpeed
          = scrollSpeedFor (GameEngine.updateCore sq s now dt).1.baseSpeed
              (GameEngine.updateCore sq s now dt).1.score
      ∧ (GameEngine.update sq s now dt).1.obstacleSpawnInterval
          = spawnIntervalFor (GameEngine.updateCore sq s now dt).1.score)
  ∧ spawnIntervalFor 0 = 2000
  ∧ spawnIntervalFor 400 = 1800
  ∧ (∀ q : ℚ, 800 ≤ spawnIntervalFor q)
  ∧ scrollSpeedFor 300 500 = 350 := by
  refine ⟨fun sq s now dt => ⟨rfl, rfl⟩, ?_, ?_, fun q => le_max_left _ _, ?_⟩
  · norm_num [spawnIntervalFor, Rat.floor, max_def]
  · norm_num [spawnIntervalFor, Rat.floor, max_def]
  · norm_num [scrollSpeedFor, Rat.floor]

/-! ### Construction-time validation (absence thereof) -/

/-- C9 (refuting the claimed fail-fast): constructing the engine with a
zero-area world raises no configuration error; the constructor has no failure
path and silently produces the degenerate lane table (0, 0, 0), ground 0 and
the normal initial bookkeeping, and the game can start. -/
theorem constructZeroAreaProceeds :
    (GameEngine.construct 0 0 ⟨fun _ => 0, 0⟩).lanePositions = (0, 0, 0)
  ∧ (GameEngine.construct 0 0 ⟨fun _ => 0, 0⟩).groundY = 0
  ∧ (GameEngine.construct 0 0 ⟨fun _ => 0, 0⟩).state = GameState.menu
  ∧ (GameEngine.construct 0 0 ⟨fun _ => 0, 0⟩).lives = 3
  ∧ (GameEngine.construct 0 0 ⟨fun _ => 0, 0⟩).player.pos = ⟨0, 0⟩
  ∧ (GameEngine.startGame (GameEngine.construct 0 0 ⟨fun _ => 0, 0⟩)).1.state
      = GameState.playing := by
  refine ⟨?_, ?_, rfl, rfl, ?_, rfl⟩ <;>
    simp [GameEngine.construct, Player.init]

/-! ### Obstacle collision resolution (hit handling) -/

/-- C1: per tick, the obstacle stage of collision resolution satisfies:
while invulnerable no obstacle is tested and the state (in particular lives
and the invulnerability window) is untouched; while not invulnerable but with
a Shield entry active an overlap is fully absorbed with no side effect at
all; otherwise the first overlapping obstacle — and only it, at most one hit
per tick — decrements lives by exactly 1, emits the `hit` sound and arms a
2000 ms invulnerability window, and the state transitions to `GameOver` with
the `gameover` sound iff lives reaches 0. -/
theorem obstacleHitResolution (s : EngineState) :
    (s.player.invulnerable = true →
       GameEngine.resolveObstacles s.player.getHitbox s = (s, []))
  ∧ (s.player.invulnerable = false → s.activePowerUps.has PowerUpType.shield = true →
       GameEngine.resolveObstacles s.player.getHitbox s = (s, []))
  ∧ (s.player.invulnerable = false → s.activePowerUps.has PowerUpType.shield = false →
     (s.obstacles.any fun o => isColliding s.player.getHitbox o.getHitbox) = true →
     1 ≤ s.lives →
       (GameEngine.resolveObstacles s.player.getHitbox s).1.lives = s.lives - 1
     ∧ (GameEngine.resolveObstacles s.player.getHitbox s).1.player.invulnerable = true
     ∧ (GameEngine.resolveObstacles s.player.getHitbox s).1.player.invulnerableTime = 2000
     ∧ GameEvent.sound "hit" ∈ (GameEngine.resolveObstacles s.player.getHitbox s).2
     ∧ (((GameEngine.resolveObstacles s.player.getHitbox s).1.state = GameState.gameOver
         ∧ GameEvent.sound "gameover" ∈ (GameEngine.resolveObstacles s.player.getHitbox s).2)
        ↔ (GameEngine.resolveObstacles s.player.getHitbox s).1.lives = 0)
     ∧ ((GameEngine.resolveObstacles s.player.getHitbox s).1.lives ≠ 0 →
         (GameEngine.resolveObstacles s.player.getHitbox s).1.state = s.state
         ∧ (GameEngine.resolveObstacles s.player.getHitbox s).2 = [GameEvent.sound "hit"])) := by
  refine ⟨?_, ?_, ?_⟩
  · intro hinv
    simp [GameEngine.resolveObstacles, hinv]
  · intro hinv hsh
    simp only [GameEngine.resolveObstacles, hinv, Bool.false_eq_true, if_false]
    cases hf : s.obstacles.find? (fun o => isColliding s.player.getHitbox o.getHitbox) with
    | none => rfl
    | some o => simp [GameEngine.handlePlayerHit, hsh]
  · intro hinv hsh hany hl
    obtain ⟨o, ho, hcol⟩ := List.any_eq_true.mp hany
    have hfind : ∃ o2, s.obstacles.find?
        (fun o => isColliding s.player.getHitbox o.getHitbox) = some o2 := by
      rw [← Option.isSome_iff_exists, List.find?_isSome]
      exact ⟨o, ho, hcol⟩
    obtain ⟨o2, hf⟩ := hfind
    have hres : GameEngine.resolveObstacles s.player.getHitbox s = GameEngine.handlePlayerHit s := by
      simp only [GameEngine.resolveObstacles, hinv, Bool.false_eq_true, if_false, hf]
    rw [hres]
    rcases lt_or_le 1 s.lives with hgt | hle
    · have hne : ¬(s.lives - 1 ≤ 0) := by omega
      have hlv : (GameEngine.handlePlayerHit s).1.lives = s.lives - 1 := by
        simp [GameEngine.handlePlayerHit, hsh, hne]
      have hinv2 : (GameEngine.handlePlayerHit s).1.player.invulnerable = true := by
        simp [GameEngine.handlePlayerHit, hsh, hne]
      have hit2 : (GameEngine.handlePlayerHit s).1.player.invulnerableTime = 2000 := by
        simp [GameEngine.handlePlayerHit, hsh, hne]
      have hev : (GameEngine.handlePlayerHit s).2 = [GameEvent.sound "hit"] := by
        simp [GameEngine.handlePlayerHit, hsh, hne]
      have hst : (GameEngine.handlePlayerHit s).1.state = s.state := by
        simp [GameEngine.handlePlayerHit, hsh, hne]
      refine ⟨hlv, hinv2, hit2, by rw [hev]; exact List.mem_singleton_self _, ?_,
        fun _ => ⟨hst, hev⟩⟩
      rw [hev, hlv]
      constructor
      · rintro ⟨-, hmem⟩
        simp at hmem
      · intro h0
        omega
    · have hone : s.lives = 1 := le_antisymm hle hl
      have hle0 : s.lives - 1 ≤ 0 := by omega
      have hlv : (GameEngine.handlePlayerHit s).1.lives = s.lives - 1 := by
        simp [GameEngine.handlePlayerHit, hsh, hle0, GameEngine.setState]
      have hinv2 : (GameEngine.handlePlayerHit s).1.player.invulnerable = true := by
        simp [GameEngine.handlePlayerHit, hsh, hle0, GameEngine.setState]
      have hit2 : (GameEngine.handlePlayerHit s).1.player.invulnerableTime = 2000 := by
        simp [GameEngine.handlePlayerHit, hsh, hle0, GameEngine.setState]
      have hev : (GameEngine.handlePlayerHit s).2
          = [GameEvent.sound "hit", GameEvent.stateChange GameState.gameOver,
             GameEvent.sound "gameover"] := by
        simp [GameEngine.handlePlayerHit, hsh, hle0, GameEngine.setState]
      have hst : (GameEngine.handlePlayerHit s).1.state = GameState.gameOver := by
        simp [GameEngine.handlePlayerHit, hsh, hle0, GameEngine.setState]
      refine ⟨hlv, hinv2, hit2, by rw [hev]; simp, ?_, ?_⟩
      · rw [hev, hlv, hst]
        refine iff_of_true ⟨rfl, by simp⟩ (by omega)
      · intro hne0
        rw [hlv] at hne0
        exact absurd (by omega : s.lives - 1 = 0) hne0

/-- A concrete playing state with one obstacle overlapping the player. -/
def sHit : EngineState :=
  { sDemo with obstacles := [⟨⟨200, 640⟩, 1, ObstacleType.barrier⟩] }

/-- Witness for `obstacleHitResolution`: on `sHit` (lives 3, not invulnerable,
no shield, one overlapping barrier) the hit costs exactly one life, arms the
2000 ms window and emits the `hit` sound. -/
theorem obstacleHitResolution_witness :
    (GameEngine.resolveObstacles sHit.player.getHitbox sHit).1.lives = sHit.lives - 1
  ∧ (GameEngine.resolveObstacles sHit.player.getHitbox sHit).1.player.invulnerableTime = 2000
  ∧ GameEvent.sound "hit" ∈ (GameEngine.resolveObstacles sHit.player.getHitbox sHit).2 :=
  have h := (obstacleHitResolution sHit).2.2 rfl rfl
    (by norm_num [sHit, sDemo, GameEngine.construct, Player.init, Player.getHitbox,
      Obstacle.getHitbox, isColliding, ObstacleType.width, ObstacleType.height])
    (by decide)
  ⟨h.1, h.2.2.1, h.2.2.2.1⟩

/-! ### Coin cluster spawning -/

lemma numCoinsOfDraws_grid (i j : ℕ) :
    numCoinsOfDraws ((i : ℚ) / 10) ((j : ℚ) / 10) = if i < 3 then 3 else if j < 6 then 2 else 1 := by
  have h1 : ((i : ℚ) / 10 < 3 / 10) ↔ (i < 3) := by
    rw [div_lt_div_iff_of_pos_right (by norm_num)]
    exact_mod_cast Iff.rfl
  have h2 : ((j : ℚ) / 10 < 6 / 10) ↔ (j < 6) := by
    rw [div_lt_div_iff_of_pos_right (by norm_num)]
    exact_mod_cast Iff.rfl
  simp only [numCoinsOfDraws, h1, h2]

lemma coinCountGrid_eq (k : ℕ) : coinCountGrid k =
    ((Finset.range 10 ×ˢ Finset.range 10).filter
      (fun p => (if p.1 < 3 then 3 else if p.2 < 6 then 2 else 1) = k)).card := by
  unfold coinCountGrid
  congr 1
  apply Finset.filter_congr
  intro p _
  rw [numCoinsOfDraws_grid]

/-- C5 (refuting the claimed 40%/30%/30% weights): over uniform draws the
source ternary `Math.random() < 0.3 ? 3 : Math.random() < 0.6 ? 2 : 1` yields
1 coin with probability 28/100, 2 coins with 42/100 and 3 coins with 30/100 —
not 40/100, 30/100, 30/100 as claimed. -/
theorem coinClusterWeights_cex :
    coinCountGrid 1 = 28 ∧ coinCountGrid 2 = 42 ∧ coinCountGrid 3 = 30
  ∧ ¬(coinCountGrid 1 = 40 ∧ coinCountGrid 2 = 30 ∧ coinCountGrid 3 = 30) := by
  have h1 : coinCountGrid 1 = 28 := by rw [coinCountGrid_eq]; decide
  have h2 : coinCountGrid 2 = 42 := by rw [coinCountGrid_eq]; decide
  have h3 : coinCountGrid 3 = 30 := by rw [coinCountGrid_eq]; decide
  refine ⟨h1, h2, h3, ?_⟩
  rintro ⟨ha, -, -⟩
  rw [h1] at ha
  exact absurd ha (by norm_num)

lemma pairwiseCoins (lanes : ℚ × ℚ × ℚ) (n : ℕ) (base : ℤ) :
    ((List.range n).map fun (i : ℕ) =>
      Coin.new ⟨laneGet lanes (min 2 (base + (i : ℤ))), -100 - (i : ℚ) * 30⟩
        (min 2 (base + (i : ℤ)))).Pairwise
      (fun a b => b.pos.y < a.pos.y ∧ a.lane ≤ b.lane) := by
  refine List.Pairwise.map _ ?_ (List.pairwise_lt_range n)
  intro i j hij
  constructor
  · show -100 - (j : ℚ) * 30 < -100 - (i : ℚ) * 30
    have h : (i : ℚ) < j := by exact_mod_cast hij
    linarith
  · show min 2 (base + (i : ℤ)) ≤ min 2 (base + (j : ℤ))
    have h : (i : ℤ) ≤ j := by exact_mod_cast hij.le
    exact min_le_min le_rfl (by omega)

/-- C5 amended: each firing of the collectible gate spawns a cluster of 1–3
coins with probabilities 28%/42%/30% for 1/2/3 (the two thresholds 0.3 and
0.6 apply to sequential draws), the cluster size being exactly
`numCoinsOfDraws` of the two draws; lanes are nondecreasing from the clamped
base lane and each successive coin sits strictly higher (y offset -30 per
index), so no two coins of a cluster coincide. -/
theorem coinClusterAmended :
    coinCountGrid 1 = 28 ∧ coinCountGrid 2 = 42 ∧ coinCountGrid 3 = 30
  ∧ (∀ (lanes : ℚ × ℚ × ℚ) (rng : Rng),
       (spawnCoin lanes rng).1.length
         = numCoinsOfDraws (rng.stream rng.idx) (rng.stream (rng.idx + 1))
     ∧ 1 ≤ (spawnCoin lanes rng).1.length
     ∧ (spawnCoin lanes rng).1.length ≤ 3
     ∧ (spawnCoin lanes rng).1.Pairwise (fun a b => b.pos.y < a.pos.y ∧ a.lane ≤ b.lane)) := by
  refine ⟨by rw [coinCountGrid_eq]; decide, by rw [coinCountGrid_eq]; decide,
    by rw [coinCountGrid_eq]; decide, ?_⟩
  intro lanes rng
  have hlen : (spawnCoin lanes rng).1.length
      = numCoinsOfDraws (rng.stream rng.idx) (rng.stream (rng.idx + 1)) := by
    unfold spawnCoin numCoinsOfDraws Rng.next
    by_cases h1 : rng.stream rng.idx < 3/10
    · simp [h1]
    · by_cases h2 : rng.stream (rng.idx + 1) < 6/10
      · simp [h1, h2]
      · simp [h1, h2]
  refine ⟨hlen, ?_, ?_, ?_⟩
  · rw [hlen]; unfold numCoinsOfDraws; split_ifs <;> norm_num
  · rw [hlen]; unfold numCoinsOfDraws; split_ifs <;> norm_num
  · exact pairwiseCoins lanes _ _

/-! ### Entity advance, culling and collection removal -/

/-- The effect of one pass of the coin-collection loop on a single coin. -/
def markCoin (pHB : Rect) (c : Coin) : Coin :=
  if !c.collected && isColliding pHB c.getHitbox then { c with collected := true } else c

/-- The effect of one pass of the power-up-collection loop on a single pickup. -/
def markPU (pHB : Rect) (pu : PowerUp) : PowerUp :=
  if !pu.collected && isColliding pHB pu.getHitbox then { pu with collected := true } else pu

lemma markCoin_pos (pHB : Rect) (c : Coin) : (markCoin pHB c).pos = c.pos := by
  unfold markCoin
  split_ifs <;> rfl

lemma markCoin_getHitbox (pHB : Rect) (c : Coin) : (markCoin pHB c).getHitbox = c.getHitbox := by
  unfold markCoin
  split_ifs <;> rfl

lemma markPU_pos (pHB : Rect) (pu : PowerUp) : (markPU pHB pu).pos = pu.pos := by
  unfold markPU
  split_ifs <;> rfl

lemma coinFold (pHB : Rect) (l : List Coin) :
    ∀ (acc : List Coin) (s : EngineState) (evs : List GameEvent),
      (l.foldl (GameEngine.collectCoinStep pHB) (acc, s, evs)).1 = acc ++ l.map (markCoin pHB)
    ∧ (l.foldl (GameEngine.collectCoinStep pHB) (acc, s, evs)).2.1.coins = s.coins
    ∧ (l.foldl (GameEngine.collectCoinStep pHB) (acc, s, evs)).2.1.obstacles = s.obstacles
    ∧ (l.foldl (GameEngine.collectCoinStep pHB) (acc, s, evs)).2.1.powerUps = s.powerUps
    ∧ (l.foldl (GameEngine.collectCoinStep pHB) (acc, s, evs)).2.1.player = s.player
    ∧ (l.foldl (GameEngine.collectCoinStep pHB) (acc, s, evs)).2.1.canvasHeight = s.canvasHeight := by
  induction l with
  | nil => intro acc s evs; simp
  | cons c t ih =>
    intro acc s evs
    simp only [List.foldl_cons, GameEngine.collectCoinStep]
    by_cases h : (!c.collected && isColliding pHB c.getHitbox) = true
    · simp only [h, if_true]
      obtain ⟨h1, h2, h3, h4, h5, h6⟩ := ih (acc ++ [{ c with collected := true }])
        { s with score := s.score + 10,
                 particles := s.particles ++ (createParticles c.pos "#FFD700" 5 s.rng).1,
                 rng := (createParticles c.pos "#FFD700" 5 s.rng).2 } (evs ++ [GameEvent.sound "coin"])
      refine ⟨?_, h2, h3, h4, h5, h6⟩
      rw [h1]
      simp [markCoin, h]
    · rw [Bool.not_eq_true] at h
      simp only [h, Bool.false_eq_true, if_false]
      obtain ⟨h1, h2, h3, h4, h5, h6⟩ := ih (acc ++ [c]) s evs
      refine ⟨?_, h2, h3, h4, h5, h6⟩
      rw [h1]
      simp [markCoin, h]

lemma activatePowerUp_getHitbox (s : EngineState) (t : PowerUpType) (now : ℚ) :
    (GameEngine.activatePowerUp s t now).player.getHitbox = s.player.getHitbox := by
  unfold GameEngine.activatePowerUp
  split_ifs <;> rfl

lemma activatePowerUp_fields (s : EngineState) (t : PowerUpType) (now : ℚ) :
    (GameEngine.activatePowerUp s t now).coins = s.coins
  ∧ (GameEngine.activatePowerUp s t now).obstacles = s.obstacles
  ∧ (GameEngine.activatePowerUp s t now).canvasHeight = s.canvasHeight
  ∧ (GameEngine.activatePowerUp s t now).particles = s.particles
  ∧ (GameEngine.activatePowerUp s t now).rng = s.rng := by
  unfold GameEngine.activatePowerUp
  split_ifs <;> exact ⟨rfl, rfl, rfl, rfl, rfl⟩

lemma puFold (pHB : Rect) (now : ℚ) (l : List PowerUp) :
    ∀ (acc : List PowerUp) (s : EngineState) (evs : List GameEvent),
      (l.foldl (GameEngine.collectPowerUpStep pHB now) (acc, s, evs)).1
        = acc ++ l.map (markPU pHB)
    ∧ (l.foldl (GameEngine.collectPowerUpStep pHB now) (acc, s, evs)).2.1.coins = s.coins
    ∧ (l.foldl (GameEngine.collectPowerUpStep pHB now) (acc, s, evs)).2.1.obstacles = s.obstacles
    ∧ (l.foldl (GameEngine.collectPowerUpStep pHB now) (acc, s, evs)).2.1.canvasHeight
        = s.canvasHeight
    ∧ (l.foldl (GameEngine.collectPowerUpStep pHB now) (acc, s, evs)).2.1.player.getHitbox
        = s.player.getHitbox := by
  induction l with
  | nil => intro acc s evs; simp
  | cons pu t ih =>
    intro acc s evs
    simp only [List.foldl_cons, GameEngine.collectPowerUpStep]
    by_cases h : (!pu.collected && isColliding pHB pu.getHitbox) = true
    · simp only [h, if_true]
      obtain ⟨hf1, hf2, hf3, hf4, hf5⟩ := activatePowerUp_fields s pu.type now
      obtain ⟨h1, h2, h3, h4, h5⟩ := ih (acc ++ [{ pu with collected := true }]) _ _
      refine ⟨?_, ?_, ?_, ?_, ?_⟩
      · rw [h1]; simp [markPU, h]
      · rw [h2]; exact hf1
      · rw [h3]; exact hf2
      · rw [h4]; exact hf3
      · rw [h5]; exact activatePowerUp_getHitbox s pu.type now
    · rw [Bool.not_eq_true] at h
      simp only [h, Bool.false_eq_true, if_false]
      obtain ⟨h1, h2, h3, h4, h5⟩ := ih (acc ++ [pu]) s evs
      refine ⟨?_, h2, h3, h4, h5⟩
      rw [h1]
      simp [markPU, h]

lemma handlePlayerHit_fields (s : EngineState) :
    (GameEngine.handlePlayerHit s).1.coins = s.coins
  ∧ (GameEngine.handlePlayerHit s).1.obstacles = s.obstacles
  ∧ (GameEngine.handlePlayerHit s).1.powerUps = s.powerUps
  ∧ (GameEngine.handlePlayerHit s).1.canvasHeight = s.canvasHeight := by
  unfold GameEngine.handlePlayerHit GameEngine.setState
  by_cases hsh : s.activePowerUps.has .shield = true
  · simp [hsh]
  · rw [Bool.not_eq_true] at hsh
    by_cases hl : s.lives - 1 ≤ 0
    · simp [hsh, hl]
    · simp [hsh, hl]

lemma resolveObstacles_fields (pHB : Rect) (s : EngineState) :
    (GameEngine.resolveObstacles pHB s).1.coins = s.coins
  ∧ (GameEngine.resolveObstacles pHB s).1.obstacles = s.obstacles
  ∧ (GameEngine.resolveObstacles pHB s).1.powerUps = s.powerUps
  ∧ (GameEngine.resolveObstacles pHB s).1.canvasHeight = s.canvasHeight := by
  unfold GameEngine.resolveObstacles
  split_ifs with hi
  · exact ⟨rfl, rfl, rfl, rfl⟩
  · cases hf : s.obstacles.find? (fun o => isColliding pHB o.getHitbox) with
    | none => exact ⟨rfl, rfl, rfl, rfl⟩
    | some o => exact handlePlayerHit_fields s

lemma checkCollisions_coins (s : EngineState) (now : ℚ) :
    (GameEngine.checkCollisions s now).1.coins
      = s.coins.map (markCoin s.player.getHitbox) := by
  simp only [GameEngine.checkCollisions]
  rw [(resolveObstacles_fields _ _).1]
  rw [(puFold _ _ _ _ _ _).2.1]
  rw [(coinFold _ _ _ _ _).1]
  simp

lemma checkCollisions_obstacles (s : EngineState) (now : ℚ) :
    (GameEngine.checkCollisions s now).1.obstacles = s.obstacles := by
  simp only [GameEngine.checkCollisions]
  rw [(resolveObstacles_fields _ _).2.1]
  rw [(puFold _ _ _ _ _ _).2.2.1]
  rw [(coinFold _ _ _ _ _).2.2.1]

lemma checkCollisions_powerUps (s : EngineState) (now : ℚ) :
    (GameEngine.checkCollisions s now).1.powerUps
      = s.powerUps.map (markPU s.player.getHitbox) := by
  simp only [GameEngine.checkCollisions]
  rw [(resolveObstacles_fields _ _).2.2.1]
  rw [(puFold _ _ _ _ _ _).1]
  rw [(coinFold _ _ _ _ _).2.2.2.1]
  simp

lemma checkCollisions_canvasHeight (s : EngineState) (now : ℚ) :
    (GameEngine.checkCollisions s now).1.canvasHeight = s.canvasHeight := by
  simp only [GameEngine.checkCollisions]
  rw [(resolveObstacles_fields _ _).2.2.2]
  rw [(puFold _ _ _ _ _ _).2.2.2.1]
  rw [(coinFold _ _ _ _ _).2.2.2.2.2]

lemma advanceStage_player (sq : ℚ → ℚ) (s : EngineState) (now dt : ℚ) :
    (GameEngine.advanceStage sq s now dt).player = s.player.update dt s.lanePositions := by
  unfold GameEngine.advanceStage
  simp only []
  split_ifs <;> rfl

lemma advanceStage_canvasHeight (sq : ℚ → ℚ) (s : EngineState) (now dt : ℚ) :
    (GameEngine.advanceStage sq s now dt).canvasHeight = s.canvasHeight := by
  unfold GameEngine.advanceStage
  simp only []
  split_ifs <;> rfl

lemma advanceStage_coins_mem (sq : ℚ → ℚ) (s : EngineState) (now dt : ℚ) :
    ∀ c ∈ (GameEngine.advanceStage sq s now dt).coins,
      c.pos.y < s.canvasHeight + 50 ∧ c.collected = false := by
  unfold GameEngine.advanceStage
  simp only []
  split_ifs <;>
  · intro c hc
    simp only [List.mem_filter, Bool.and_eq_true, Bool.not_eq_true',
      decide_eq_true_eq] at hc
    exact ⟨hc.2.1, hc.2.2⟩

lemma advanceStage_obstacles_mem (sq : ℚ → ℚ) (s : EngineState) (now dt : ℚ) :
    ∀ o ∈ (GameEngine.advanceStage sq s now dt).obstacles,
      o.pos.y < s.canvasHeight + 100 := by
  unfold GameEngine.advanceStage
  simp only []
  split_ifs <;>
  · intro o ho
    simp only [List.mem_filter, decide_eq_true_eq] at ho
    exact ho.2

lemma advanceStage_powerUps_mem (sq : ℚ → ℚ) (s : EngineState) (now dt : ℚ) :
    ∀ p ∈ (GameEngine.advanceStage sq s now dt).powerUps,
      p.pos.y < s.canvasHeight + 50 := by
  unfold GameEngine.advanceStage
  simp only []
  split_ifs <;>
  · intro p hp
    simp only [List.mem_filter, Bool.and_eq_true, Bool.not_eq_true',
      decide_eq_true_eq] at hp
    exact hp.2.1

/-- C6 amended: detection and removal do not share a tick — the cull runs
before collision detection, so a coin collected at tick t stays (flagged) in
the tick-t snapshot and is removed by the next tick's cull.  What does hold:
every entity in a post-tick snapshot is strictly inside its exit margin
(canvasHeight + 100 for obstacles, + 50 for coins and pickups) — hence an
entity culled for passing the margin can never appear in any later snapshot —
and every collected-flagged coin in a snapshot was detected in that very tick
(it overlaps the player's current hit-box); coins already flagged at the
start of a tick are dropped by that tick's cull. -/
theorem entityCullingAmended (sq : ℚ → ℚ) (s : EngineState) (now dt : ℚ) :
    (∀ o ∈ (GameEngine.update sq s now dt).1.obstacles, o.pos.y < s.canvasHeight + 100)
  ∧ (∀ c ∈ (GameEngine.update sq s now dt).1.coins, c.pos.y < s.canvasHeight + 50)
  ∧ (∀ p ∈ (GameEngine.update sq s now dt).1.powerUps, p.pos.y < s.canvasHeight + 50)
  ∧ (∀ c ∈ (GameEngine.update sq s now dt).1.coins, c.collected = true →
       isColliding ((s.player.update dt s.lanePositions).getHitbox) c.getHitbox = true) := by
  have hob : (GameEngine.update sq s now dt).1.obstacles
      = (GameEngine.advanceStage sq s now dt).obstacles := by
    simp only [GameEngine.update, GameEngine.updateCore]
    rw [checkCollisions_obstacles]
  have hco : (GameEngine.update sq s now dt).1.coins
      = (GameEngine.advanceStage sq s now dt).coins.map
          (markCoin ((GameEngine.advanceStage sq s now dt).player.getHitbox)) := by
    simp only [GameEngine.update, GameEngine.updateCore]
    rw [checkCollisions_coins]
  have hpu : (GameEngine.update sq s now dt).1.powerUps
      = (GameEngine.advanceStage sq s now dt).powerUps.map
          (markPU ((GameEngine.advanceStage sq s now dt).player.getHitbox)) := by
    simp only [GameEngine.update, GameEngine.updateCore]
    rw [checkCollisions_powerUps]
  have hpl := advanceStage_player sq s now dt
  refine ⟨?_, ?_, ?_, ?_⟩
  · intro o ho
    rw [hob] at ho
    exact advanceStage_obstacles_mem sq s now dt o ho
  · intro c hc
    rw [hco] at hc
    obtain ⟨c0, hc0, rfl⟩ := List.mem_map.mp hc
    rw [markCoin_pos]
    exact (advanceStage_coins_mem sq s now dt c0 hc0).1
  · intro p hp
    rw [hpu] at hp
    obtain ⟨p0, hp0, rfl⟩ := List.mem_map.mp hp
    rw [markPU_pos]
    exact advanceStage_powerUps_mem sq s now dt p0 hp0
  · intro c hc hcol
    rw [hco] at hc
    obtain ⟨c0, hc0, rfl⟩ := List.mem_map.mp hc
    rw [markCoin_getHitbox]
    have h0 := (advanceStage_coins_mem sq s now dt c0 hc0).2
    by_cases hg : (!c0.collected && isColliding
        ((GameEngine.advanceStage sq s now dt).player.getHitbox) c0.getHitbox) = true
    · rw [← hpl]
      simp only [Bool.and_eq_true, Bool.not_eq_true'] at hg
      exact hg.2
    · exfalso
      unfold markCoin at hcol
      rw [if_neg hg] at hcol
      rw [h0] at hcol
      exact absurd hcol (by decide)

/-- A concrete playing state whose single uncollected coin overlaps the
player this tick; all spawn gates are kept closed (`now = ` last spawn
stamps). -/
def s6 : EngineState :=
  { state := .playing
    player := Player.init 200 640 640
    obstacles := []
    coins := [Coin.new ⟨200, 630⟩ 1]
    powerUps := []
    particles := []
    lanePositions := (100, 200, 300)
    gameSpeed := 300
    baseSpeed := 300
    score := 0
    highScore := 0
    lives := 3
    groundY := 640
    canvasHeight := 800
    lastObstacleSpawn := 100000
    lastCoinSpawn := 100000
    lastPowerUpSpawn := 100000
    obstacleSpawnInterval := 2000
    activePowerUps := EffectRegistry.empty
    rng := ⟨fun _ => 0, 0⟩
    lastTime := 0 }

/-- C6 counterexample: the coin collected during this tick is NOT removed
from the coin list in the same tick as detection — the tick ends with the
flagged coin still in the snapshot (the cull runs before detection). -/
theorem collectedCoinStaysThisTick_cex :
    ((GameEngine.update sqrt0 s6 100000 (1/100)).1.coins.any fun c => c.collected) = true
  ∧ (GameEngine.update sqrt0 s6 100000 (1/100)).1.coins.length = 1 := by
  norm_num [GameEngine.update, GameEngine.updateCore, GameEngine.advanceStage,
    GameEngine.checkCollisions, GameEngine.collectCoinStep, GameEngine.resolveObstacles,
    s6, Player.init, Player.update, Player.getHitbox, Coin.new, Coin.update, Coin.getHitbox,
    isColliding, EffectRegistry.empty, EffectRegistry.has, EffectRegistry.get,
    EffectRegistry.purge, purgeEntry, lerp, clampZ, laneGet, createParticles, Rng.next,
    randomIn, Particle.new, sqrt0, min_def, max_def]

/-- Witness for `entityCullingAmended` at the concrete state `s6`: the coin
flagged this tick is inside the margin and overlaps the player's hit-box. -/
theorem entityCullingAmended_witness :
    (⟨⟨200, 633⟩, 1, true, 3/20, none⟩ : Coin).pos.y < s6.canvasHeight + 50
  ∧ isColliding ((s6.player.update (1/100) s6.lanePositions).getHitbox)
      (⟨⟨200, 633⟩, 1, true, 3/20, none⟩ : Coin).getHitbox = true := by
  have hmem : (⟨⟨200, 633⟩, 1, true, 3/20, none⟩ : Coin)
      ∈ (GameEngine.update sqrt0 s6 100000 (1/100)).1.coins := by
    norm_num [GameEngine.update, GameEngine.updateCore, GameEngine.advanceStage,
      GameEngine.checkCollisions, GameEngine.collectCoinStep, GameEngine.resolveObstacles,
      s6, Player.init, Player.update, Player.getHitbox, Coin.new, Coin.update, Coin.getHitbox,
      isColliding, EffectRegistry.empty, EffectRegistry.has, EffectRegistry.get,
      EffectRegistry.purge, purgeEntry, lerp, clampZ, laneGet, createParticles, Rng.next,
      randomIn, Particle.new, sqrt0, min_def, max_def]
  exact ⟨(entityCullingAmended sqrt0 s6 100000 (1/100)).2.1 _ hmem,
         (entityCullingAmended sqrt0 s6 100000 (1/100)).2.2.2 _ hmem rfl⟩

/-! ### Pause and wall-clock timers -/

/-- A concrete playing state at wall-clock t = 1000 ms: the coin gate last
fired at t = 0 (500 ms of its 1500 ms interval remain) and a Shield effect
expires at t = 10000 (9000 ms remain). -/
def s4 : EngineState :=
  { state := .playing
    player := { Player.init 200 640 640 with invulnerable := true, invulnerableTime := 10000 }
    obstacles := []
    coins := []
    powerUps := []
    particles := []
    lanePositions := (100, 200, 300)
    gameSpeed := 300
    baseSpeed := 300
    score := 0
    highScore := 0
    lives := 3
    groundY := 640
    canvasHeight := 800
    lastObstacleSpawn := 0
    lastCoinSpawn := 0
    lastPowerUpSpawn := 0
    obstacleSpawnInterval := 2000
    activePowerUps := ⟨none, none, some 10000⟩
    rng := ⟨fun _ => 1/2, 0⟩
    lastTime := 1000 }

/-- The state after pausing at t = 1000. -/
def s4p : EngineState := (GameEngine.pauseGame s4).1

/-- The state after resuming (still before any tick has run). -/
def s4r : EngineState := (GameEngine.resumeGame s4p).1

set_option maxHeartbeats 2000000 in
/-- C4 (refuting the freeze): gate stamps and effect expiries are wall-clock
timestamps compared against `Date.now()`, so a pause does advance them.
Pausing at t = 1000 with 500 ms left on the coin gate and 9000 ms left on the
Shield: paused frames indeed run no tick and touch nothing, but on the first
tick after resuming at t = 20016 the coin gate fires immediately and the
Shield entry has been purged — instead of the gate still owing 500 ms and the
shield still owing 9000 ms as the spec requires. -/
theorem pausedRealTimeAdvancesTimers_bug :
    (1500 : ℚ) - (1000 - s4.lastCoinSpawn) = 500
  ∧ s4.activePowerUps.get .shield = some 10000
  ∧ (GameEngine.frame sqrt0 s4p 5000).1.lastCoinSpawn = s4.lastCoinSpawn
  ∧ (GameEngine.frame sqrt0 s4p 5000).1.activePowerUps = s4.activePowerUps
  ∧ (GameEngine.frame sqrt0 s4p 5000).2 = []
  ∧ (GameEngine.frame sqrt0 s4r 20016).1.lastCoinSpawn = 20016
  ∧ 1 ≤ (GameEngine.frame sqrt0 s4r 20016).1.coins.length
  ∧ (GameEngine.frame sqrt0 s4r 20016).1.activePowerUps.get .shield = none := by
  refine ⟨by norm_num [s4], rfl, rfl, rfl, rfl, ?_, ?_, ?_⟩ <;>
    norm_num [GameEngine.frame, GameEngine.update, GameEngine.updateCore,
      GameEngine.advanceStage, GameEngine.checkCollisions, GameEngine.collectCoinStep,
      GameEngine.collectPowerUpStep, GameEngine.resolveObstacles, GameEngine.resumeGame,
      GameEngine.pauseGame, GameEngine.setState, s4, s4p, s4r, Player.init, Player.update,
      Player.getHitbox, Coin.new, Coin.update, Coin.getHitbox, Obstacle.update,
      Obstacle.getHitbox, PowerUp.update, PowerUp.getHitbox, ObstacleType.width,
      ObstacleType.height, spawnObstacle, spawnCoin, spawnPowerUp, isColliding,
      EffectRegistry.has, EffectRegistry.get, EffectRegistry.purge, purgeEntry,
      lerp, clampZ, laneGet, createParticles, Rng.next, randomIn, Particle.new,
      Particle.update, sqrt0, Rat.floor, min_def, max_def, Function.comp,
      List.range_succ, List.range_zero]

/-! ### First tick of a fresh session -/

/-- A fresh session: construct with a 400×800 world, then `startGame`. -/
def freshStart (u : ℕ → ℚ) : EngineState :=
  (GameEngine.startGame (GameEngine.construct 400 800 ⟨u, 0⟩)).1

set_option maxHeartbeats 2000000 in
/-- C10: `startGame` (via `resetGame`) resets all three spawn stamps to 0 and
empties the entity lists, while the gates compare `Date.now()` against the
stamps; hence the very first Playing tick of a fresh session (any wall-clock
`now` past 15000 ms — `Date.now()` is always far larger) fires all three
gates at once: it spawns one obstacle, one coin cluster and one power-pickup
immediately, without waiting the 2000/1500/15000 ms intervals. -/
theorem firstTickFiresAllGates (now : ℚ) (h : 15000 < now) :
    (∀ s : EngineState, (GameEngine.startGame s).1.lastObstacleSpawn = 0
       ∧ (GameEngine.startGame s).1.lastCoinSpawn = 0
       ∧ (GameEngine.startGame s).1.lastPowerUpSpawn = 0
       ∧ (GameEngine.startGame s).1.obstacles = []
       ∧ (GameEngine.startGame s).1.coins = []
       ∧ (GameEngine.startGame s).1.powerUps = [])
  ∧ (GameEngine.update sqrt0 (freshStart (fun _ => 1/2)) now (1/100)).1.obstacles.length = 1
  ∧ (GameEngine.update sqrt0 (freshStart (fun _ => 1/2)) now (1/100)).1.coins.length = 2
  ∧ (GameEngine.update sqrt0 (freshStart (fun _ => 1/2)) now (1/100)).1.powerUps.length = 1
  ∧ (GameEngine.update sqrt0 (freshStart (fun _ => 1/2)) now (1/100)).1.lastObstacleSpawn = now
  ∧ (GameEngine.update sqrt0 (freshStart (fun _ => 1/2)) now (1/100)).1.lastCoinSpawn = now
  ∧ (GameEngine.update sqrt0 (freshStart (fun _ => 1/2)) now (1/100)).1.lastPowerUpSpawn = now := by
  have h1 : (2000 : ℚ) < now := by linarith
  have h2 : (1500 : ℚ) < now := by linarith
  have h3 : (15000 : ℚ) < now := by linarith
  refine ⟨fun s => ⟨rfl, rfl, rfl, rfl, rfl, rfl⟩, ?_, ?_, ?_, ?_, ?_, ?_⟩ <;>
    norm_num [freshStart, GameEngine.startGame, GameEngine.resetGame, GameEngine.setState,
      GameEngine.construct, GameEngine.update, GameEngine.updateCore, GameEngine.advanceStage,
      GameEngine.checkCollisions, GameEngine.collectCoinStep, GameEngine.collectPowerUpStep,
      GameEngine.resolveObstacles, Player.init, Player.update, Player.getHitbox,
      Coin.new, Coin.update, Coin.getHitbox, Obstacle.update, Obstacle.getHitbox,
      PowerUp.update, PowerUp.getHitbox, ObstacleType.width, ObstacleType.height,
      spawnObstacle, spawnCoin, spawnPowerUp, isColliding, EffectRegistry.empty,
      EffectRegistry.has, EffectRegistry.get, EffectRegistry.purge, purgeEntry,
      lerp, clampZ, laneGet, createParticles, Rng.next, randomIn, Particle.new,
      Particle.update, sqrt0, Rat.floor, min_def, max_def, Function.comp,
      List.range_succ, List.range_zero, sub_zero, h1, h2, h3]

/-- Witness for `firstTickFiresAllGates` at `now = 16000`. -/
theorem firstTickFiresAllGates_witness :
    (GameEngine.update sqrt0 (freshStart (fun _ => 1/2)) 16000 (1/100)).1.obstacles.length = 1
  ∧ (GameEngine.update sqrt0 (freshStart (fun _ => 1/2)) 16000 (1/100)).1.coins.length = 2
  ∧ (GameEngine.update sqrt0 (freshStart (fun _ => 1/2)) 16000 (1/100)).1.powerUps.length = 1
  ∧ (GameEngine.update sqrt0 (freshStart (fun _ => 1/2)) 16000 (1/100)).1.lastCoinSpawn = 16000 :=
  ⟨(firstTickFiresAllGates 16000 (by norm_num)).2.1,
   (firstTickFiresAllGates 16000 (by norm_num)).2.2.1,
   (firstTickFiresAllGates 16000 (by norm_num)).2.2.2.1,
   (firstTickFiresAllGates 16000 (by norm_num)).2.2.2.2.2.1⟩
